import Mathlib

/-! Verification development for the Team Spark bot engine (`src/main.py`).

The embedding models the state owned by `register_handlers`: the operator
registry `admin_ids`, the thread table `contact_threads`, and the form
session store `collaborate_sessions`.  The outbound transport
(`bot.send_message` / `bot.reply_to`) is modelled by `send`, which consumes
a fresh message id and appends the message to an observable trace; a
boolean oracle `ok` on chat ids decides whether a given send raises a
transport error (a failed send aborts the handler at that point, keeping
all state mutations made so far, which is what an uncaught exception does
to the Python handler).  `broadcasts` is a ghost trace recording each call
to `_broadcast_to_admins` together with the summary it was given.
-/

namespace TeamSpark

set_option autoImplicit false

/-- One record of the thread table (`ContactThread` in the source). -/
structure ContactThread where
  user_chat_id : Nat
  user_message_id : Nat
  user_name : String
  message_text : String
deriving Repr, DecidableEq

/-- One in-progress intake form (`CollaborateFormSession` in the source).
`none` models Python `None`. -/
structure CollaborateFormSession where
  chat_id : Nat
  user_id : Nat
  name : Option String
  organization : Option String
  idea : Option String
  timeline : Option String
  contact_info : Option String
deriving Repr, DecidableEq

/-- An outbound message, as recorded on the send trace. -/
structure SentMsg where
  chat_id : Nat
  message_id : Nat
  text : String
deriving Repr, DecidableEq

/-- The mutable state captured by `register_handlers`, plus the send trace,
the ghost broadcast trace, and the fresh message id counter. -/
structure BotState where
  admin_ids : List Nat
  contact_threads : List ((Nat × Nat) × ContactThread)
  collaborate_sessions : List (Nat × CollaborateFormSession)
  sent : List SentMsg
  broadcasts : List String
  nextMsgId : Nat
deriving Repr, DecidableEq

/-- An inbound event (the parts of a `types.Message` the handlers read).
`reply_to` is the `(chat id, message id)` of `message.reply_to_message`,
`text` is `""` when the message has no text, and `from_full_name` /
`from_username` are `""` when Python would have a falsy value. -/
structure Msg where
  chat_id : Nat
  message_id : Nat
  from_user_id : Nat
  from_full_name : String
  from_username : String
  content_type : String
  text : String
  reply_to : Option (Nat × Nat)
deriving Repr, DecidableEq

/-- `bot.send_message(chat, txt)`: fails (raises) when the transport oracle
rejects the chat; otherwise returns the updated state and the fresh message
id of the sent message. -/
def send (ok : Nat → Bool) (st : BotState) (chat : Nat) (txt : String) :
    Option (BotState × Nat) :=
  if ok chat then
    some ({ st with
              sent := st.sent ++ [⟨chat, st.nextMsgId, txt⟩],
              nextMsgId := st.nextMsgId + 1 },
          st.nextMsgId)
  else none

/-- A transport on which every send succeeds. -/
def allOk : Nat → Bool := fun _ => true

/-- `user.full_name or user.username or "Someone"`. -/
def displayName (full_name username : String) : String :=
  if full_name ≠ "" then full_name
  else if username ≠ "" then username
  else "Someone"

/-- Python `s.split(maxsplit=1)`: drop leading whitespace, take the first
whitespace-free token, drop the separating whitespace run; a remainder is
returned only when non-empty. -/
def pySplit1 (s : String) : List String :=
  let cs := s.data.dropWhile Char.isWhitespace
  if cs.isEmpty then []
  else
    let tok := cs.takeWhile (fun c => !c.isWhitespace)
    let rest := (cs.dropWhile (fun c => !c.isWhitespace)).dropWhile Char.isWhitespace
    if rest.isEmpty then [String.mk tok]
    else [String.mk tok, String.mk rest]

/-- Thread-table lookup (`contact_threads.get(key)`). -/
def dictGet (d : List ((Nat × Nat) × ContactThread)) (k : Nat × Nat) :
    Option ContactThread :=
  match d with
  | [] => none
  | (k0, v) :: rest => if k0 = k then some v else dictGet rest k

/-- Session-store lookup (`collaborate_sessions` dict access / membership). -/
def getSession (d : List (Nat × CollaborateFormSession)) (uid : Nat) :
    Option CollaborateFormSession :=
  match d with
  | [] => none
  | (u, s) :: rest => if u = uid then some s else getSession rest uid

/-- Mutating the session object aliased from the store: replace the stored
session for `uid`, leaving every other entry alone. -/
def updateSessionStore (d : List (Nat × CollaborateFormSession)) (uid : Nat)
    (s : CollaborateFormSession) : List (Nat × CollaborateFormSession) :=
  match d with
  | [] => []
  | p :: rest =>
      if p.1 = uid then (uid, s) :: updateSessionStore rest uid s
      else p :: updateSessionStore rest uid s

/-- `collaborate_sessions.pop(uid, None)`: remove the first entry for `uid`. -/
def popSession (d : List (Nat × CollaborateFormSession)) (uid : Nat) :
    List (Nat × CollaborateFormSession) :=
  match d with
  | [] => []
  | p :: rest => if p.1 = uid then rest else p :: popSession rest uid

/-- `_is_admin` from the source. -/
def _is_admin (admin_ids : List Nat) (user_id : Nat) : Bool :=
  admin_ids.contains user_id

/-- `admin_ids.add(u)` on the operator set (kept as an order-stable list). -/
def addAdmin (admin_ids : List Nat) (u : Nat) : List Nat :=
  if u ∈ admin_ids then admin_ids else admin_ids ++ [u]

def registerUsageText : String := "Please provide the password: /register &lt;password&gt;."
def wrongPasswordText : String := "That password does not match our records."
def registeredText : String := "You are now registered to receive team messages."
def contactUsageText : String := "Please send your request as /contact &lt;message&gt; so we can forward it."
def contactAckText : String := "Thanks! Your message is on its way to the coordination team."
def noAdminsText : String := "We currently don\x27t have anyone available, but your message has been saved. We\x27ll reach out soon!"
def retryText : String := "Please send a text response so we can continue."
def alreadyOpenText : String := "You\x27re already filling out a collaboration request. Please finish that first."
def nameFirstPromptText : String := "Let\x27s plan something together! First, what\x27s your name?"
def orgPromptText : String := "Which club, organization, or group are you representing?"
def ideaPromptText : String := "Awesome! Share a quick overview of your collaboration idea."
def timelinePromptText : String := "When would you like to collaborate?"
def contactInfoPromptText : String := "Great! What\x27s the best way for us to reach you (email, Telegram @, etc.)?"
def collabAckText : String := "Thanks! The team will review your collaboration idea and reply here soon."
def teamReplyLabel : String := "💬 Team Spark: "
def sentConfirmText : String := "Sent to the requester."

inductive RegisterOutcome
  | UsageShown
  | WrongSecret
  | Registered
  | SendFailed
deriving Repr, DecidableEq

/-- `handle_register` from the source; `pw` is the configured
`ADMIN_REGISTRATION_PASSWORD`. -/
def handle_register (ok : Nat → Bool) (pw : String) (st : BotState) (m : Msg) :
    BotState × RegisterOutcome :=
  let parts := pySplit1 m.text
  if parts.length < 2 then
    match send ok st m.chat_id registerUsageText with
    | none => (st, .SendFailed)
    | some (st1, _) => (st1, .UsageShown)
  else
    let password := (parts.getD 1 "").trim
    if password ≠ pw then
      match send ok st m.chat_id wrongPasswordText with
      | none => (st, .SendFailed)
      | some (st1, _) => (st1, .WrongSecret)
    else
      let st1 := { st with admin_ids := addAdmin st.admin_ids m.from_user_id }
      match send ok st1 m.chat_id registeredText with
      | none => (st1, .SendFailed)
      | some (st2, _) => (st2, .Registered)

inductive BroadcastResult
  | NoOperators
  | Delivered (count : Nat)
  | Aborted (count : Nat)
deriving Repr, DecidableEq

/-- The fan-out loop of `_broadcast_to_admins` (`for admin_id in admin_ids`).
A failed send raises, which aborts the loop, keeping the sends and thread
entries already made (`Aborted count`). -/
def _broadcast_loop (ok : Nat → Bool) (origin_chat origin_mid : Nat)
    (user_name summary : String) :
    BotState → List Nat → Nat → BotState × BroadcastResult
  | st, [], count => (st, .Delivered count)
  | st, a :: rest, count =>
    match send ok st a summary with
    | none => (st, .Aborted count)
    | some (st1, mid) =>
      _broadcast_loop ok origin_chat origin_mid user_name summary
        { st1 with contact_threads :=
            ((a, mid), ⟨origin_chat, origin_mid, user_name, summary⟩) :: st1.contact_threads }
        rest (count + 1)

/-- `_broadcast_to_admins` from the source.  Also appends `summary` to the
ghost `broadcasts` trace, marking that one broadcast call happened. -/
def _broadcast_to_admins (ok : Nat → Bool) (st : BotState) (origin : Msg)
    (summary ack_text : String) : BotState × BroadcastResult :=
  let user_chat_id := origin.chat_id
  let user_name := displayName origin.from_full_name origin.from_username
  let st0 := { st with broadcasts := st.broadcasts ++ [summary] }
  match send ok st0 user_chat_id ack_text with
  | none => (st0, .Aborted 0)
  | some (st1, _) =>
    if st1.admin_ids.isEmpty then
      match send ok st1 user_chat_id noAdminsText with
      | none => (st1, .Aborted 0)
      | some (st2, _) => (st2, .NoOperators)
    else
      _broadcast_loop ok user_chat_id origin.message_id user_name summary st1 st1.admin_ids 0

inductive ContactOutcome
  | UsageShown
  | Broadcast (r : BroadcastResult)
  | SendFailed
deriving Repr, DecidableEq

/-- The summary template built by `handle_contact`. -/
def contactSummary (user_name : String) (uid chat : Nat) (details : String) : String :=
  "📨 <b>New contact request</b>\n\nFrom: " ++ user_name ++ " (ID: " ++ toString uid ++
    ")\nChat ID: " ++ toString chat ++ "\n\nMessage: " ++ details ++
    "\n\nReply to this message to reach them through the bot."

/-- `handle_contact` from the source. -/
def handle_contact (ok : Nat → Bool) (st : BotState) (m : Msg) :
    BotState × ContactOutcome :=
  let parts := pySplit1 m.text
  if parts.length < 2 ∨ (parts.getD 1 "").trim = "" then
    match send ok st m.chat_id contactUsageText with
    | none => (st, .SendFailed)
    | some (st1, _) => (st1, .UsageShown)
  else
    let user_name := displayName m.from_full_name m.from_username
    let details := (parts.getD 1 "").trim
    let summary := contactSummary user_name m.from_user_id m.chat_id details
    let r := _broadcast_to_admins ok st m summary contactAckText
    (r.1, .Broadcast r.2)

/-- The five form slots, in prompt order (the chained
`_capture_*` handlers of the source). -/
inductive Stage
  | name
  | organization
  | idea
  | timeline
  | contact_info
deriving Repr, DecidableEq

/-- A registered `register_next_step_handler` continuation: which capture
comes next, together with the session object the closure holds. -/
structure PendingStep where
  stage : Stage
  session : CollaborateFormSession
deriving Repr, DecidableEq

/-- Python `f"...{opt}..."` on a `str | None` field. -/
def strOfOpt : Option String → String
  | none => "None"
  | some s => s

/-- The summary template built by `_send_collaboration`. -/
def collabSummary (user_name : String) (sess : CollaborateFormSession) : String :=
  "🤝 <b>New collaboration request</b>\n\nFrom: " ++ user_name ++ " (ID: " ++
    toString sess.user_id ++ ")\nChat ID: " ++ toString sess.chat_id ++
    "\n\nName: " ++ strOfOpt sess.name ++
    "\nOrganization: " ++ strOfOpt sess.organization ++
    "\nIdea: " ++ strOfOpt sess.idea ++
    "\nTimeline: " ++ strOfOpt sess.timeline ++
    "\nContact info: " ++ strOfOpt sess.contact_info ++
    "\n\nReply to this message to follow up with them."

/-- `_send_collaboration` from the source: pop the session, then broadcast
the assembled summary, with the final answer message as origin. -/
def _send_collaboration (ok : Nat → Bool) (st : BotState)
    (sess : CollaborateFormSession) (origin : Msg) : BotState × BroadcastResult :=
  let st1 := { st with collaborate_sessions := popSession st.collaborate_sessions sess.user_id }
  let user_name := displayName origin.from_full_name origin.from_username
  _broadcast_to_admins ok st1 origin (collabSummary user_name sess) collabAckText

/-- One `_capture_*` handler from the source: store the trimmed answer into
the current slot (visible through the store, which aliases the session
object), then send the next prompt and register the next capture — or, for
the last slot, hand off to `_send_collaboration`.  Returns the continuation
registered for the next message, if any. -/
def _capture_step (ok : Nat → Bool) (st : BotState) (stage : Stage)
    (sess : CollaborateFormSession) (m : Msg) : BotState × Option PendingStep :=
  match stage with
  | .name =>
    let s1 := { sess with name := some m.text.trim }
    let st1 := { st with collaborate_sessions := updateSessionStore st.collaborate_sessions sess.user_id s1 }
    match send ok st1 s1.chat_id orgPromptText with
    | none => (st1, none)
    | some (st2, _) => (st2, some ⟨.organization, s1⟩)
  | .organization =>
    let s1 := { sess with organization := some m.text.trim }
    let st1 := { st with collaborate_sessions := updateSessionStore st.collaborate_sessions sess.user_id s1 }
    match send ok st1 s1.chat_id ideaPromptText with
    | none => (st1, none)
    | some (st2, _) => (st2, some ⟨.idea, s1⟩)
  | .idea =>
    let s1 := { sess with idea := some m.text.trim }
    let st1 := { st with collaborate_sessions := updateSessionStore st.collaborate_sessions sess.user_id s1 }
    match send ok st1 s1.chat_id timelinePromptText with
    | none => (st1, none)
    | some (st2, _) => (st2, some ⟨.timeline, s1⟩)
  | .timeline =>
    let s1 := { sess with timeline := some m.text.trim }
    let st1 := { st with collaborate_sessions := updateSessionStore st.collaborate_sessions sess.user_id s1 }
    match send ok st1 s1.chat_id contactInfoPromptText with
    | none => (st1, none)
    | some (st2, _) => (st2, some ⟨.contact_info, s1⟩)
  | .contact_info =>
    let s1 := { sess with contact_info := some m.text.trim }
    let st1 := { st with collaborate_sessions := updateSessionStore st.collaborate_sessions sess.user_id s1 }
    let r := _send_collaboration ok st1 s1 m
    (r.1, none)

/-- `_ensure_text` from the source: on a non-text or empty message, send the
fixed retry notice and re-register itself with the same continuation;
otherwise run the wrapped capture handler. -/
def _ensure_text_step (ok : Nat → Bool) (st : BotState) (p : PendingStep)
    (m : Msg) : BotState × Option PendingStep :=
  if m.content_type ≠ "text" ∨ m.text = "" then
    match send ok st m.chat_id retryText with
    | none => (st, none)
    | some (st1, _) => (st1, some p)
  else
    _capture_step ok st p.stage p.session m

inductive StartOutcome
  | AlreadyOpen
  | Started
  | SendFailed
deriving Repr, DecidableEq

/-- `handle_collaborate` from the source. -/
def handle_collaborate (ok : Nat → Bool) (st : BotState) (m : Msg) :
    BotState × Option PendingStep × StartOutcome :=
  let uid := m.from_user_id
  if (getSession st.collaborate_sessions uid).isSome then
    match send ok st m.chat_id alreadyOpenText with
    | none => (st, none, .SendFailed)
    | some (st1, _) => (st1, none, .AlreadyOpen)
  else
    let session : CollaborateFormSession := ⟨m.chat_id, uid, none, none, none, none, none⟩
    let st1 := { st with collaborate_sessions := (uid, session) :: st.collaborate_sessions }
    match send ok st1 m.chat_id nameFirstPromptText with
    | none => (st1, none, .SendFailed)
    | some (st2, _) => (st2, some ⟨Stage.name, session⟩, .Started)

/-- Feed a list of inbound messages to the registered continuation chain,
one message per registered step (no step registered means the message is
not captured by the form flow). -/
def runSteps (ok : Nat → Bool) :
    BotState × Option PendingStep → List Msg → BotState × Option PendingStep
  | s, [] => s
  | (st, some p), m :: ms =>
      let r := _ensure_text_step ok st p m
      runSteps ok r ms
  | (st, none), _ :: ms => runSteps ok (st, none) ms

inductive RouteOutcome
  | NotAReply
  | NotOperator
  | NoSuchThread
  | Delivered
  | SendFailed
deriving Repr, DecidableEq

/-- `handle_admin_reply` from the source. -/
def handle_admin_reply (ok : Nat → Bool) (st : BotState) (m : Msg) :
    BotState × RouteOutcome :=
  match m.reply_to with
  | none => (st, .NotAReply)
  | some key =>
    if _is_admin st.admin_ids m.from_user_id then
      match dictGet st.contact_threads key with
      | none => (st, .NoSuchThread)
      | some thread =>
        match send ok st thread.user_chat_id (teamReplyLabel ++ m.text) with
        | none => (st, .SendFailed)
        | some (st1, _) =>
          match send ok st1 m.chat_id sentConfirmText with
          | none => (st1, .SendFailed)
          | some (st2, _) => (st2, .Delivered)
    else (st, .NotOperator)

/-- The messages the fan-out loop sends when every send succeeds: one copy
of `summary` per operator, with consecutive fresh message ids from `base`. -/
def sendsAfter (base : Nat) (admins : List Nat) (summary : String) : List SentMsg :=
  match admins with
  | [] => []
  | a :: rest => ⟨a, base, summary⟩ :: sendsAfter (base + 1) rest summary

/-- The thread table produced by the fan-out loop on top of `acc`: one entry
keyed `(operator, message id)` per operator, all pointing at `t`. -/
def threadsAfter (base : Nat) (admins : List Nat) (t : ContactThread)
    (acc : List ((Nat × Nat) × ContactThread)) : List ((Nat × Nat) × ContactThread) :=
  match admins with
  | [] => acc
  | a :: rest => threadsAfter (base + 1) rest t (((a, base), t) :: acc)

/-- Statement of the property `s` contains `sub` verbatim as a substring. -/
def strContains (s sub : String) : Prop := ∃ p q : String, s = p ++ (sub ++ q)

theorem broadcast_loop_ok (ok : Nat → Bool) (oc omid : Nat) (un summary : String) :
    ∀ (admins : List Nat) (st : BotState) (count : Nat),
      (∀ a ∈ admins, ok a = true) →
      _broadcast_loop ok oc omid un summary st admins count =
        ({ st with
            sent := st.sent ++ sendsAfter st.nextMsgId admins summary,
            contact_threads := threadsAfter st.nextMsgId admins ⟨oc, omid, un, summary⟩ st.contact_threads,
            nextMsgId := st.nextMsgId + admins.length },
         .Delivered (count + admins.length)) := by
  intro admins
  induction admins with
  | nil =>
      intro st count _
      simp [_broadcast_loop, sendsAfter, threadsAfter]
  | cons a rest ih =>
      intro st count h
      have ha : ok a = true := h a (List.mem_cons_self _ _)
      have hr : ∀ x ∈ rest, ok x = true := fun x hx => h x (List.mem_cons_of_mem _ hx)
      rw [_broadcast_loop]
      simp only [send, ha, if_true]
      rw [ih _ (count + 1) hr]
      simp [sendsAfter, threadsAfter, Nat.add_assoc, Nat.add_comm, Nat.add_left_comm]

theorem broadcast_loop_abort (ok : Nat → Bool) (oc omid : Nat) (un summary : String)
    (bad : Nat) (hbad : ok bad = false) (rest : List Nat) :
    ∀ (good : List Nat) (st : BotState) (count : Nat),
      (∀ a ∈ good, ok a = true) →
      _broadcast_loop ok oc omid un summary st (good ++ bad :: rest) count =
        ({ st with
            sent := st.sent ++ sendsAfter st.nextMsgId good summary,
            contact_threads := threadsAfter st.nextMsgId good ⟨oc, omid, un, summary⟩ st.contact_threads,
            nextMsgId := st.nextMsgId + good.length },
         .Aborted (count + good.length)) := by
  intro good
  induction good with
  | nil =>
      intro st count _
      rw [List.nil_append, _broadcast_loop]
      simp [send, hbad, sendsAfter, threadsAfter]
  | cons a g ih =>
      intro st count h
      have ha : ok a = true := h a (List.mem_cons_self _ _)
      have hg : ∀ x ∈ g, ok x = true := fun x hx => h x (List.mem_cons_of_mem _ hx)
      rw [List.cons_append, _broadcast_loop]
      simp only [send, ha, if_true]
      rw [ih _ (count + 1) hg]
      simp [sendsAfter, threadsAfter, Nat.add_assoc, Nat.add_comm, Nat.add_left_comm]

theorem dictGet_threadsAfter_lt (t : ContactThread) :
    ∀ (admins : List Nat) (base : Nat) (acc : List ((Nat × Nat) × ContactThread))
      (k : Nat × Nat), k.2 < base →
      dictGet (threadsAfter base admins t acc) k = dictGet acc k := by
  intro admins
  induction admins with
  | nil => intro base acc k _; rfl
  | cons a rest ih =>
      intro base acc k hk
      rw [threadsAfter]
      rw [ih (base + 1) _ k (Nat.lt_succ_of_lt hk)]
      rw [dictGet]
      have : (a, base) ≠ k := by
        intro he
        rw [← he] at hk
        exact Nat.lt_irrefl base hk
      simp [this]

theorem dictGet_threadsAfter_hit (t : ContactThread) :
    ∀ (admins : List Nat) (i : Nat) (a : Nat) (base : Nat)
      (acc : List ((Nat × Nat) × ContactThread)),
      admins.get? i = some a →
      dictGet (threadsAfter base admins t acc) (a, base + i) = some t := by
  intro admins
  induction admins with
  | nil => intro i a base acc h; simp [List.get?] at h
  | cons a0 rest ih =>
      intro i a base acc h
      cases i with
      | zero =>
          rw [List.get?] at h
          have ha : a0 = a := by
            injection h
          subst ha
          rw [threadsAfter]
          rw [dictGet_threadsAfter_lt t rest (base + 1) _ (a0, base + 0) (by omega)]
          simp [dictGet]
      | succ i =>
          rw [List.get?] at h
          rw [threadsAfter]
          have he : base + (i + 1) = (base + 1) + i := by omega
          rw [he]
          exact ih i a (base + 1) _ h

theorem updateStore_miss (s : CollaborateFormSession) :
    ∀ (d : List (Nat × CollaborateFormSession)) (uid : Nat),
      getSession d uid = none → updateSessionStore d uid s = d := by
  intro d
  induction d with
  | nil => intro uid _; rfl
  | cons p rest ih =>
      intro uid h
      rw [getSession] at h
      by_cases hp : p.1 = uid
      · simp [hp] at h
      · rw [updateSessionStore, if_neg hp]
        rw [ih uid (by simpa [hp] using h)]

theorem broadcast_loop_preserves (ok : Nat → Bool) (oc omid : Nat) (un summary : String) :
    ∀ (admins : List Nat) (st : BotState) (count : Nat),
      (_broadcast_loop ok oc omid un summary st admins count).1.collaborate_sessions = st.collaborate_sessions
      ∧ (_broadcast_loop ok oc omid un summary st admins count).1.broadcasts = st.broadcasts
      ∧ (_broadcast_loop ok oc omid un summary st admins count).1.admin_ids = st.admin_ids := by
  intro admins
  induction admins with
  | nil => intro st count; exact ⟨rfl, rfl, rfl⟩
  | cons a rest ih =>
      intro st count
      rw [_broadcast_loop]
      cases hsend : send ok st a summary with
      | none => exact ⟨rfl, rfl, rfl⟩
      | some p =>
          obtain ⟨st1, mid⟩ := p
          have hst1 : st1.collaborate_sessions = st.collaborate_sessions
              ∧ st1.broadcasts = st.broadcasts ∧ st1.admin_ids = st.admin_ids := by
            rw [send] at hsend
            by_cases hok : ok a = true
            · rw [if_pos hok] at hsend
              injection hsend with h1
              injection h1 with h2 h3
              rw [← h2]
              exact ⟨rfl, rfl, rfl⟩
            · rw [if_neg hok] at hsend
              exact absurd hsend (by simp)
          have := ih { st1 with contact_threads :=
              ((a, mid), ⟨oc, omid, un, summary⟩) :: st1.contact_threads } (count + 1)
          simpa [hst1.1, hst1.2.1, hst1.2.2] using this

theorem broadcast_preserves (ok : Nat → Bool) (st : BotState) (origin : Msg)
    (summary ack_text : String) :
    (_broadcast_to_admins ok st origin summary ack_text).1.collaborate_sessions = st.collaborate_sessions
    ∧ (_broadcast_to_admins ok st origin summary ack_text).1.broadcasts = st.broadcasts ++ [summary]
    ∧ (_broadcast_to_admins ok st origin summary ack_text).1.admin_ids = st.admin_ids := by
  rw [_broadcast_to_admins]
  by_cases hok : ok origin.chat_id = true
  · simp only [send, hok, if_true]
    by_cases he : st.admin_ids.isEmpty
    · simp [he, send]
    · simp only [he, Bool.false_eq_true, if_false]
      have := broadcast_loop_preserves ok origin.chat_id origin.message_id
        (displayName origin.from_full_name origin.from_username) summary st.admin_ids
        { st with
            broadcasts := st.broadcasts ++ [summary],
            sent := (st.sent ++ [⟨origin.chat_id, st.nextMsgId, ack_text⟩]),
            nextMsgId := st.nextMsgId + 1 } 0
      simpa using this
  · simp [send, hok]

/-- Closed form of a fully successful broadcast: ack to the visitor, one
summary per operator with consecutive fresh ids, one thread entry per
operator pointing at the origin. -/
theorem broadcast_all_ok (ok : Nat → Bool) (st : BotState) (origin : Msg)
    (summary ack_text : String)
    (hv : ok origin.chat_id = true)
    (ha : ∀ a ∈ st.admin_ids, ok a = true)
    (hne : st.admin_ids ≠ []) :
    _broadcast_to_admins ok st origin summary ack_text =
      ({ st with
          broadcasts := st.broadcasts ++ [summary],
          sent := (st.sent ++ [⟨origin.chat_id, st.nextMsgId, ack_text⟩]) ++
            sendsAfter (st.nextMsgId + 1) st.admin_ids summary,
          contact_threads := threadsAfter (st.nextMsgId + 1) st.admin_ids
            ⟨origin.chat_id, origin.message_id,
              displayName origin.from_full_name origin.from_username, summary⟩
            st.contact_threads,
          nextMsgId := (st.nextMsgId + 1) + st.admin_ids.length },
       .Delivered st.admin_ids.length) := by
  have he : st.admin_ids.isEmpty = false := by
    cases h : st.admin_ids.isEmpty
    · rfl
    · exact absurd (List.isEmpty_iff.mp h) hne
  rw [_broadcast_to_admins]
  simp only [send, hv, if_true, he, Bool.false_eq_true, if_false]
  rw [broadcast_loop_ok ok origin.chat_id origin.message_id
    (displayName origin.from_full_name origin.from_username) summary st.admin_ids _ 0 ha]
  simp

/-- C3: a broadcast with a non-empty operator set sends one summary to each
operator in the set as it stands at call time, and records for each such
send one thread entry keyed by that operator's chat id and the fresh
message id of that send, holding the origin visitor's chat id, origin
message id, display name, and the summary text. -/
theorem C3_fanout_records_threads (ok : Nat → Bool) (st : BotState) (origin : Msg)
    (summary ack_text : String)
    (hv : ok origin.chat_id = true)
    (ha : ∀ a ∈ st.admin_ids, ok a = true)
    (hne : st.admin_ids ≠ []) :
    _broadcast_to_admins ok st origin summary ack_text =
      ({ st with
          broadcasts := st.broadcasts ++ [summary],
          sent := (st.sent ++ [⟨origin.chat_id, st.nextMsgId, ack_text⟩]) ++
            sendsAfter (st.nextMsgId + 1) st.admin_ids summary,
          contact_threads := threadsAfter (st.nextMsgId + 1) st.admin_ids
            ⟨origin.chat_id, origin.message_id,
              displayName origin.from_full_name origin.from_username, summary⟩
            st.contact_threads,
          nextMsgId := (st.nextMsgId + 1) + st.admin_ids.length },
       .Delivered st.admin_ids.length) :=
  broadcast_all_ok ok st origin summary ack_text hv ha hne

theorem C3_fanout_records_threads_witness :
    (allOk (1 : Nat) = true ∧ (∀ a ∈ [10, 20], allOk a = true) ∧ ([10, 20] : List Nat) ≠ []) ∧
    _broadcast_to_admins allOk ⟨[10, 20], [], [], [], [], 0⟩
        ⟨1, 5, 7, "Vera", "", "text", "hi", none⟩ "S" "A" =
      ({ admin_ids := [10, 20],
         contact_threads := threadsAfter 1 [10, 20] ⟨1, 5, "Vera", "S"⟩ [],
         collaborate_sessions := [],
         sent := ([] ++ [⟨1, 0, "A"⟩]) ++ sendsAfter 1 [10, 20] "S",
         broadcasts := [] ++ ["S"],
         nextMsgId := 1 + 2 }, .Delivered 2) :=
  ⟨⟨rfl, by decide, by decide⟩,
   C3_fanout_records_threads allOk ⟨[10, 20], [], [], [], [], 0⟩
     ⟨1, 5, 7, "Vera", "", "text", "hi", none⟩ "S" "A" rfl (by decide) (by decide)⟩

/-- C8: a broadcast while the operator set is empty still sends the ack to
the origin visitor, then the "no one available" notice, returns
`NoOperators`, and creates no thread entry. -/
theorem C8_empty_operator_set (ok : Nat → Bool) (st : BotState) (origin : Msg)
    (summary ack_text : String)
    (hv : ok origin.chat_id = true)
    (he : st.admin_ids = []) :
    _broadcast_to_admins ok st origin summary ack_text =
      ({ st with
          broadcasts := st.broadcasts ++ [summary],
          sent := st.sent ++ [⟨origin.chat_id, st.nextMsgId, ack_text⟩,
                              ⟨origin.chat_id, st.nextMsgId + 1, noAdminsText⟩],
          nextMsgId := st.nextMsgId + 2 },
       .NoOperators) := by
  rw [_broadcast_to_admins]
  simp [send, hv, he]

theorem C8_empty_operator_set_witness :
    (allOk (1 : Nat) = true ∧ (⟨[], [], [], [], [], 0⟩ : BotState).admin_ids = []) ∧
    _broadcast_to_admins allOk ⟨[], [], [], [], [], 0⟩
        ⟨1, 5, 7, "Vera", "", "text", "hi", none⟩ "S" "A" =
      ({ admin_ids := [],
         contact_threads := [],
         collaborate_sessions := [],
         sent := [] ++ [⟨1, 0, "A"⟩, ⟨1, 0 + 1, noAdminsText⟩],
         broadcasts := [] ++ ["S"],
         nextMsgId := 0 + 2 }, .NoOperators) :=
  ⟨⟨rfl, rfl⟩,
   C8_empty_operator_set allOk ⟨[], [], [], [], [], 0⟩
     ⟨1, 5, 7, "Vera", "", "text", "hi", none⟩ "S" "A" rfl rfl⟩

/-- C2: a reply event whose sender is not a registered operator performs no
routing: the state is unchanged and nothing is sent, even when the
replied-to message is a recorded thread entry. -/
theorem C2_unregistered_sender_ignored (ok : Nat → Bool) (st : BotState) (r : Msg)
    (k : Nat × Nat)
    (hr : r.reply_to = some k)
    (hna : _is_admin st.admin_ids r.from_user_id = false) :
    handle_admin_reply ok st r = (st, .NotOperator) := by
  rw [handle_admin_reply, hr]
  simp [hna]

theorem C2_unregistered_sender_ignored_witness :
    ((⟨100, 9, 99, "X", "", "text", "hey", some (5, 7)⟩ : Msg).reply_to = some (5, 7) ∧
      _is_admin (⟨[1], [((5, 7), ⟨42, 3, "Vera", "S"⟩)], [], [], [], 0⟩ : BotState).admin_ids 99 = false) ∧
    handle_admin_reply allOk ⟨[1], [((5, 7), ⟨42, 3, "Vera", "S"⟩)], [], [], [], 0⟩
        ⟨100, 9, 99, "X", "", "text", "hey", some (5, 7)⟩ =
      (⟨[1], [((5, 7), ⟨42, 3, "Vera", "S"⟩)], [], [], [], 0⟩, .NotOperator) :=
  ⟨⟨rfl, by decide⟩,
   C2_unregistered_sender_ignored allOk
     ⟨[1], [((5, 7), ⟨42, 3, "Vera", "S"⟩)], [], [], [], 0⟩
     ⟨100, 9, 99, "X", "", "text", "hey", some (5, 7)⟩ (5, 7) rfl (by decide)⟩

/-- C5: starting while a session for the sender is open replies
"already filling out" and leaves the store unchanged; starting with no open
session creates a fresh session awaiting the first slot and sends the first
prompt. -/
theorem C5_at_most_one_session (st : BotState) (m : Msg) :
    handle_collaborate allOk st m =
      if (getSession st.collaborate_sessions m.from_user_id).isSome then
        ({ st with
            sent := st.sent ++ [⟨m.chat_id, st.nextMsgId, alreadyOpenText⟩],
            nextMsgId := st.nextMsgId + 1 }, none, .AlreadyOpen)
      else
        ({ st with
            collaborate_sessions :=
              (m.from_user_id, ⟨m.chat_id, m.from_user_id, none, none, none, none, none⟩) ::
                st.collaborate_sessions,
            sent := st.sent ++ [⟨m.chat_id, st.nextMsgId, nameFirstPromptText⟩],
            nextMsgId := st.nextMsgId + 1 },
         some ⟨Stage.name, ⟨m.chat_id, m.from_user_id, none, none, none, none, none⟩⟩,
         .Started) := by
  rw [handle_collaborate]
  by_cases h : (getSession st.collaborate_sessions m.from_user_id).isSome
  · simp [h, send, allOk]
  · simp [h, send, allOk]

/-- C10: a `/contact` with no argument (or a whitespace-only argument) only
sends the usage reply: no broadcast happens, no ack is sent, and the
operator set and thread table are untouched. -/
theorem C10_contact_usage_only (st : BotState) (m : Msg)
    (h : (pySplit1 m.text).length < 2 ∨ ((pySplit1 m.text).getD 1 "").trim = "") :
    handle_contact allOk st m =
      ({ st with
          sent := st.sent ++ [⟨m.chat_id, st.nextMsgId, contactUsageText⟩],
          nextMsgId := st.nextMsgId + 1 }, .UsageShown) := by
  rw [handle_contact]
  simp only [if_pos h, send, allOk, if_true]

theorem C10_contact_usage_only_witness :
    ((pySplit1 "/contact").length < 2 ∨ ((pySplit1 "/contact").getD 1 "").trim = "") ∧
    handle_contact allOk ⟨[3], [], [], [], [], 4⟩
        ⟨100, 9, 7, "Vera", "", "text", "/contact", none⟩ =
      ({ admin_ids := [3],
         contact_threads := [],
         collaborate_sessions := [],
         sent := [] ++ [⟨100, 4, contactUsageText⟩],
         broadcasts := [],
         nextMsgId := 4 + 1 }, .UsageShown) :=
  ⟨by decide,
   C10_contact_usage_only ⟨[3], [], [], [], [], 4⟩
     ⟨100, 9, 7, "Vera", "", "text", "/contact", none⟩ (by decide)⟩

/-- C9: with an argument present, registration adds the sender to the
operator set iff the supplied secret (the command argument after the
caller's own trimming) equals the configured secret by exact string
comparison; on mismatch the outcome is `WrongSecret` and the only state
change is the error reply, so a non-member stays a non-member; adding an
already-registered id is a no-op, so membership stays true. -/
theorem C9_register_gate (pw : String) (st : BotState) (m : Msg)
    (hlen : ¬ (pySplit1 m.text).length < 2) :
    ((handle_register allOk pw st m).1.admin_ids =
        if ((pySplit1 m.text).getD 1 "").trim = pw then addAdmin st.admin_ids m.from_user_id
        else st.admin_ids)
    ∧ ((handle_register allOk pw st m).2 =
        if ((pySplit1 m.text).getD 1 "").trim = pw then RegisterOutcome.Registered
        else RegisterOutcome.WrongSecret)
    ∧ _is_admin (addAdmin st.admin_ids m.from_user_id) m.from_user_id = true
    ∧ (m.from_user_id ∈ st.admin_ids → addAdmin st.admin_ids m.from_user_id = st.admin_ids)
    ∧ (((pySplit1 m.text).getD 1 "").trim ≠ pw →
        (handle_register allOk pw st m).1 =
          { st with
              sent := st.sent ++ [⟨m.chat_id, st.nextMsgId, wrongPasswordText⟩],
              nextMsgId := st.nextMsgId + 1 }) := by
  have h3 : _is_admin (addAdmin st.admin_ids m.from_user_id) m.from_user_id = true := by
    rw [addAdmin]
    by_cases hm : m.from_user_id ∈ st.admin_ids
    · rw [if_pos hm, _is_admin]
      simpa using hm
    · rw [if_neg hm, _is_admin]
      simp
  have h4 : m.from_user_id ∈ st.admin_ids → addAdmin st.admin_ids m.from_user_id = st.admin_ids := by
    intro hm
    rw [addAdmin, if_pos hm]
  by_cases hq : ((pySplit1 m.text).getD 1 "").trim = pw
  · have hreg : handle_register allOk pw st m =
        ({ st with
            admin_ids := addAdmin st.admin_ids m.from_user_id,
            sent := st.sent ++ [⟨m.chat_id, st.nextMsgId, registeredText⟩],
            nextMsgId := st.nextMsgId + 1 }, .Registered) := by
      rw [handle_register]
      simp only [if_neg hlen]
      rw [if_neg (not_not_intro hq)]
      simp [send, allOk]
    refine ⟨?_, ?_, h3, h4, fun hne => absurd hq hne⟩
    · rw [hreg, if_pos hq]
    · rw [hreg, if_pos hq]
  · have hreg : handle_register allOk pw st m =
        ({ st with
            sent := st.sent ++ [⟨m.chat_id, st.nextMsgId, wrongPasswordText⟩],
            nextMsgId := st.nextMsgId + 1 }, .WrongSecret) := by
      rw [handle_register]
      simp only [if_neg hlen]
      rw [if_pos hq]
      simp [send, allOk]
    refine ⟨?_, ?_, h3, h4, fun _ => ?_⟩
    · rw [hreg, if_neg hq]
    · rw [hreg, if_neg hq]
    · rw [hreg]

theorem C9_register_gate_witness :
    (¬ (pySplit1 "/register change-me").length < 2) ∧
    (((handle_register allOk "change-me" ⟨[], [], [], [], [], 0⟩
          ⟨100, 9, 7, "Vera", "", "text", "/register change-me", none⟩).1.admin_ids =
        if ((pySplit1 "/register change-me").getD 1 "").trim = "change-me" then addAdmin [] 7
        else [])
      ∧ ((handle_register allOk "change-me" ⟨[], [], [], [], [], 0⟩
          ⟨100, 9, 7, "Vera", "", "text", "/register change-me", none⟩).2 =
        if ((pySplit1 "/register change-me").getD 1 "").trim = "change-me" then RegisterOutcome.Registered
        else RegisterOutcome.WrongSecret)
      ∧ _is_admin (addAdmin [] 7) 7 = true
      ∧ ((7 : Nat) ∈ ([] : List Nat) → addAdmin [] 7 = [])
      ∧ (((pySplit1 "/register change-me").getD 1 "").trim ≠ "change-me" →
          (handle_register allOk "change-me" ⟨[], [], [], [], [], 0⟩
            ⟨100, 9, 7, "Vera", "", "text", "/register change-me", none⟩).1 =
          { admin_ids := [], contact_threads := [], collaborate_sessions := [],
            sent := [] ++ [⟨100, 0, wrongPasswordText⟩], broadcasts := [],
            nextMsgId := 0 + 1 })) :=
  ⟨by decide,
   C9_register_gate "change-me" ⟨[], [], [], [], [], 0⟩
     ⟨100, 9, 7, "Vera", "", "text", "/register change-me", none⟩ (by decide)⟩

/-- C6 as stated is false on the code: with operators `[10, 20]` and a
transport that fails for operator `10`, the fan-out stops at the failure —
operator `20` receives nothing, no thread entry is recorded for anyone, and
the outcome is an abort, not `Delivered` with a success count. -/
theorem C6_counterexample_abort :
    ((_broadcast_to_admins (fun c => c != 10) ⟨[10, 20], [], [], [], [], 0⟩
        ⟨1, 5, 7, "Vera", "", "text", "hi", none⟩ "S" "A").2 = .Aborted 0)
    ∧ ((_broadcast_to_admins (fun c => c != 10) ⟨[10, 20], [], [], [], [], 0⟩
        ⟨1, 5, 7, "Vera", "", "text", "hi", none⟩ "S" "A").1.sent.filter
          (fun x => x.chat_id == 20) = [])
    ∧ ((_broadcast_to_admins (fun c => c != 10) ⟨[10, 20], [], [], [], [], 0⟩
        ⟨1, 5, 7, "Vera", "", "text", "hi", none⟩ "S" "A").1.contact_threads = [])
    ∧ (∀ n : Nat, (_broadcast_to_admins (fun c => c != 10) ⟨[10, 20], [], [], [], [], 0⟩
        ⟨1, 5, 7, "Vera", "", "text", "hi", none⟩ "S" "A").2 ≠ .Delivered n) := by
  refine ⟨by decide, by decide, by decide, ?_⟩
  intro n
  have h : (_broadcast_to_admins (fun c => c != 10) ⟨[10, 20], [], [], [], [], 0⟩
      ⟨1, 5, 7, "Vera", "", "text", "hi", none⟩ "S" "A").2 = .Aborted 0 := by decide
  rw [h]
  intro hc
  exact BroadcastResult.noConfusion hc

/-- C6 amended: when the send to one operator fails, the error propagates
and aborts the fan-out at that point — operators earlier in iteration order
keep their sends and thread entries, but the failing operator and every
operator after it receive nothing and get no thread entry, and the
broadcast reports an abort after `good.length` successful sends instead of
completing with a `Delivered` count over the whole set. -/
theorem C6_amended_abort_on_failure (ok : Nat → Bool) (st : BotState) (origin : Msg)
    (summary ack_text : String) (good : List Nat) (bad : Nat) (rest : List Nat)
    (hsplit : st.admin_ids = good ++ bad :: rest)
    (hv : ok origin.chat_id = true)
    (hg : ∀ a ∈ good, ok a = true)
    (hb : ok bad = false) :
    _broadcast_to_admins ok st origin summary ack_text =
      ({ st with
          broadcasts := st.broadcasts ++ [summary],
          sent := (st.sent ++ [⟨origin.chat_id, st.nextMsgId, ack_text⟩]) ++
            sendsAfter (st.nextMsgId + 1) good summary,
          contact_threads := threadsAfter (st.nextMsgId + 1) good
            ⟨origin.chat_id, origin.message_id,
              displayName origin.from_full_name origin.from_username, summary⟩
            st.contact_threads,
          nextMsgId := (st.nextMsgId + 1) + good.length },
       .Aborted good.length) := by
  have he : st.admin_ids.isEmpty = false := by
    rw [hsplit]
    cases good <;> rfl
  rw [_broadcast_to_admins]
  simp only [send, hv, if_true, he, Bool.false_eq_true, if_false]
  rw [hsplit]
  rw [broadcast_loop_abort ok origin.chat_id origin.message_id
    (displayName origin.from_full_name origin.from_username) summary bad hb rest good _ 0 hg]
  simp

theorem C6_amended_abort_on_failure_witness :
    ((⟨[10, 20], [], [], [], [], 0⟩ : BotState).admin_ids = [] ++ 10 :: [20] ∧
      (fun c => c != 10) (1 : Nat) = true ∧
      (∀ a ∈ ([] : List Nat), (fun c => c != 10) a = true) ∧
      (fun c => c != 10) (10 : Nat) = false) ∧
    _broadcast_to_admins (fun c => c != 10) ⟨[10, 20], [], [], [], [], 0⟩
        ⟨1, 5, 7, "Vera", "", "text", "hi", none⟩ "S" "A" =
      ({ admin_ids := [10, 20],
         contact_threads := threadsAfter 1 [] ⟨1, 5, "Vera", "S"⟩ [],
         collaborate_sessions := [],
         sent := ([] ++ [⟨1, 0, "A"⟩]) ++ sendsAfter 1 [] "S",
         broadcasts := [] ++ ["S"],
         nextMsgId := 1 + 0 }, .Aborted 0) :=
  ⟨⟨rfl, rfl, by decide, rfl⟩,
   C6_amended_abort_on_failure (fun c => c != 10) ⟨[10, 20], [], [], [], [], 0⟩
     ⟨1, 5, 7, "Vera", "", "text", "hi", none⟩ "S" "A" [] 10 [20]
     rfl rfl (by decide) rfl⟩

/-- C7 as stated is false on the code: on invalid input the handler does
re-register the same step without storing or advancing, but the message it
sends is the fixed generic retry notice, not the prompt of the current
slot — here slot 0, whose prompt is the "First, what\x27s your name?" text. -/
theorem C7_counterexample_generic_retry :
    ((_ensure_text_step allOk ⟨[], [], [(7, ⟨100, 7, none, none, none, none, none⟩)], [], [], 5⟩
        ⟨Stage.name, ⟨100, 7, none, none, none, none, none⟩⟩
        ⟨100, 9, 7, "Vera", "", "photo", "", none⟩).1.sent = [⟨100, 5, retryText⟩])
    ∧ retryText ≠ nameFirstPromptText
    ∧ ((_ensure_text_step allOk ⟨[], [], [(7, ⟨100, 7, none, none, none, none, none⟩)], [], [], 5⟩
        ⟨Stage.name, ⟨100, 7, none, none, none, none, none⟩⟩
        ⟨100, 9, 7, "Vera", "", "photo", "", none⟩).2 =
          some ⟨Stage.name, ⟨100, 7, none, none, none, none, none⟩⟩) := by
  refine ⟨by decide, ?_, by decide⟩
  intro h
  exact absurd (congrArg String.length h) (by decide)

/-- C7 amended: for any run of invalid (non-text or empty) inputs, the
handler stores nothing, never advances the slot, keeps the session store
and broadcast trace unchanged, re-registers the same step after each input
(so it retries indefinitely, with no limit), and sends one copy of the
fixed generic retry notice — not the slot's prompt — per invalid input. -/
theorem C7_amended_fixed_retry_notice :
    ∀ (ms : List Msg) (st : BotState) (p : PendingStep),
      (∀ m ∈ ms, m.content_type ≠ "text" ∨ m.text = "") →
      (runSteps allOk (st, some p) ms).2 = some p
      ∧ (runSteps allOk (st, some p) ms).1.collaborate_sessions = st.collaborate_sessions
      ∧ (runSteps allOk (st, some p) ms).1.broadcasts = st.broadcasts
      ∧ ∃ extra : List SentMsg,
          (runSteps allOk (st, some p) ms).1.sent = st.sent ++ extra
          ∧ extra.length = ms.length
          ∧ ∀ x ∈ extra, x.text = retryText := by
  intro ms
  induction ms with
  | nil =>
      intro st p _
      exact ⟨rfl, rfl, rfl, [], by simp [runSteps], rfl, by simp⟩
  | cons m ms ih =>
      intro st p hinv
      have hm : m.content_type ≠ "text" ∨ m.text = "" := hinv m (List.mem_cons_self _ _)
      have hms : ∀ x ∈ ms, x.content_type ≠ "text" ∨ x.text = "" :=
        fun x hx => hinv x (List.mem_cons_of_mem _ hx)
      rw [runSteps]
      rw [_ensure_text_step, if_pos hm]
      simp only [send, allOk, if_true]
      obtain ⟨h1, h2, h3, extra, h4, h5, h6⟩ :=
        ih { st with sent := st.sent ++ [⟨m.chat_id, st.nextMsgId, retryText⟩],
                     nextMsgId := st.nextMsgId + 1 } p hms
      refine ⟨h1, by simpa using h2, by simpa using h3,
        ⟨m.chat_id, st.nextMsgId, retryText⟩ :: extra, ?_, by simpa using h5, ?_⟩
      · rw [h4]
        simp
      · intro x hx
        rcases List.mem_cons.mp hx with hx | hx
        · rw [hx]
        · exact h6 x hx

theorem C7_amended_fixed_retry_notice_witness :
    (∀ m ∈ [(⟨100, 9, 7, "Vera", "", "photo", "", none⟩ : Msg),
            ⟨100, 10, 7, "Vera", "", "sticker", "", none⟩],
        m.content_type ≠ "text" ∨ m.text = "") ∧
    ((runSteps allOk (⟨[], [], [(7, ⟨100, 7, none, none, none, none, none⟩)], [], [], 5⟩,
        some ⟨Stage.name, ⟨100, 7, none, none, none, none, none⟩⟩)
        [⟨100, 9, 7, "Vera", "", "photo", "", none⟩,
         ⟨100, 10, 7, "Vera", "", "sticker", "", none⟩]).2 =
      some ⟨Stage.name, ⟨100, 7, none, none, none, none, none⟩⟩
    ∧ (runSteps allOk (⟨[], [], [(7, ⟨100, 7, none, none, none, none, none⟩)], [], [], 5⟩,
        some ⟨Stage.name, ⟨100, 7, none, none, none, none, none⟩⟩)
        [⟨100, 9, 7, "Vera", "", "photo", "", none⟩,
         ⟨100, 10, 7, "Vera", "", "sticker", "", none⟩]).1.collaborate_sessions =
      [(7, ⟨100, 7, none, none, none, none, none⟩)]
    ∧ (runSteps allOk (⟨[], [], [(7, ⟨100, 7, none, none, none, none, none⟩)], [], [], 5⟩,
        some ⟨Stage.name, ⟨100, 7, none, none, none, none, none⟩⟩)
        [⟨100, 9, 7, "Vera", "", "photo", "", none⟩,
         ⟨100, 10, 7, "Vera", "", "sticker", "", none⟩]).1.broadcasts = []
    ∧ ∃ extra : List SentMsg,
        (runSteps allOk (⟨[], [], [(7, ⟨100, 7, none, none, none, none, none⟩)], [], [], 5⟩,
          some ⟨Stage.name, ⟨100, 7, none, none, none, none, none⟩⟩)
          [⟨100, 9, 7, "Vera", "", "photo", "", none⟩,
           ⟨100, 10, 7, "Vera", "", "sticker", "", none⟩]).1.sent = [] ++ extra
        ∧ extra.length = 2
        ∧ ∀ x ∈ extra, x.text = retryText) :=
  ⟨by decide,
   C7_amended_fixed_retry_notice
     [⟨100, 9, 7, "Vera", "", "photo", "", none⟩,
      ⟨100, 10, 7, "Vera", "", "sticker", "", none⟩]
     ⟨[], [], [(7, ⟨100, 7, none, none, none, none, none⟩)], [], [], 5⟩
     ⟨Stage.name, ⟨100, 7, none, none, none, none, none⟩⟩ (by decide)⟩

/-- The state left by a broadcast call. -/
def afterBroadcast (ok : Nat → Bool) (st : BotState) (origin : Msg)
    (summary ack_text : String) : BotState :=
  (_broadcast_to_admins ok st origin summary ack_text).1

/-- C1: after a broadcast recorded a thread entry for the copy sent to the
operator at position `i` (whose fresh message id is `st.nextMsgId + 1 + i`),
a registered operator's reply to exactly that `(chat id, message id)` pair
sends the reply text prefixed with the team label to the origin visitor's
chat id — the only other send being the confirmation back to the operator —
while a registered operator's reply to any pair absent from the thread
table sends nothing and changes nothing (`NoSuchThread`). -/
theorem C1_reply_routes_to_origin (ok : Nat → Bool) (st : BotState) (origin : Msg)
    (summary ack_text : String) (i a : Nat) (r1 r2 : Msg) (c mid : Nat)
    (hv : ok origin.chat_id = true)
    (ha : ∀ x ∈ st.admin_ids, ok x = true)
    (hne : st.admin_ids ≠ [])
    (hget : st.admin_ids.get? i = some a)
    (hr1 : r1.reply_to = some (a, st.nextMsgId + 1 + i))
    (hadm1 : _is_admin st.admin_ids r1.from_user_id = true)
    (hok1 : ok r1.chat_id = true)
    (hr2 : r2.reply_to = some (c, mid))
    (hadm2 : _is_admin st.admin_ids r2.from_user_id = true)
    (hmiss : dictGet (afterBroadcast ok st origin summary ack_text).contact_threads
      (c, mid) = none) :
    handle_admin_reply ok (afterBroadcast ok st origin summary ack_text) r1 =
      ({ afterBroadcast ok st origin summary ack_text with
          sent := (afterBroadcast ok st origin summary ack_text).sent ++
            [⟨origin.chat_id, (afterBroadcast ok st origin summary ack_text).nextMsgId,
               teamReplyLabel ++ r1.text⟩,
             ⟨r1.chat_id, (afterBroadcast ok st origin summary ack_text).nextMsgId + 1,
               sentConfirmText⟩],
          nextMsgId := (afterBroadcast ok st origin summary ack_text).nextMsgId + 2 },
       .Delivered)
    ∧ handle_admin_reply ok (afterBroadcast ok st origin summary ack_text) r2 =
      (afterBroadcast ok st origin summary ack_text, .NoSuchThread) := by
  have hB : afterBroadcast ok st origin summary ack_text =
      { st with
          broadcasts := st.broadcasts ++ [summary],
          sent := (st.sent ++ [⟨origin.chat_id, st.nextMsgId, ack_text⟩]) ++
            sendsAfter (st.nextMsgId + 1) st.admin_ids summary,
          contact_threads := threadsAfter (st.nextMsgId + 1) st.admin_ids
            ⟨origin.chat_id, origin.message_id,
              displayName origin.from_full_name origin.from_username, summary⟩
            st.contact_threads,
          nextMsgId := (st.nextMsgId + 1) + st.admin_ids.length } := by
    rw [afterBroadcast, broadcast_all_ok ok st origin summary ack_text hv ha hne]
  rw [hB] at hmiss ⊢
  have hhit : dictGet (threadsAfter (st.nextMsgId + 1) st.admin_ids
      ⟨origin.chat_id, origin.message_id,
        displayName origin.from_full_name origin.from_username, summary⟩
      st.contact_threads) (a, st.nextMsgId + 1 + i) =
      some ⟨origin.chat_id, origin.message_id,
        displayName origin.from_full_name origin.from_username, summary⟩ :=
    dictGet_threadsAfter_hit _ st.admin_ids i a (st.nextMsgId + 1) st.contact_threads hget
  constructor
  · rw [handle_admin_reply, hr1]
    simp only [hadm1, if_true, hhit, send, hv, hok1]
    simp
  · rw [handle_admin_reply, hr2]
    simp only [hadm2, if_true, hmiss]

theorem C1_reply_routes_to_origin_witness :
    (allOk (1 : Nat) = true
      ∧ (∀ x ∈ [10, 20], allOk x = true)
      ∧ ([10, 20] : List Nat) ≠ []
      ∧ ([10, 20] : List Nat).get? 1 = some 20
      ∧ (⟨20, 50, 10, "Op", "", "text", "answer", some (20, 2)⟩ : Msg).reply_to = some (20, 0 + 1 + 1)
      ∧ _is_admin [10, 20] 10 = true
      ∧ allOk (20 : Nat) = true
      ∧ (⟨20, 51, 10, "Op", "", "text", "x", some (99, 99)⟩ : Msg).reply_to = some (99, 99)
      ∧ dictGet (afterBroadcast allOk ⟨[10, 20], [], [], [], [], 0⟩
          ⟨1, 5, 7, "Vera", "", "text", "hi", none⟩ "S" "A").contact_threads (99, 99) = none)
    ∧ (handle_admin_reply allOk (afterBroadcast allOk ⟨[10, 20], [], [], [], [], 0⟩
          ⟨1, 5, 7, "Vera", "", "text", "hi", none⟩ "S" "A")
          ⟨20, 50, 10, "Op", "", "text", "answer", some (20, 2)⟩ =
        ({ afterBroadcast allOk ⟨[10, 20], [], [], [], [], 0⟩
              ⟨1, 5, 7, "Vera", "", "text", "hi", none⟩ "S" "A" with
            sent := (afterBroadcast allOk ⟨[10, 20], [], [], [], [], 0⟩
                ⟨1, 5, 7, "Vera", "", "text", "hi", none⟩ "S" "A").sent ++
              [⟨1, (afterBroadcast allOk ⟨[10, 20], [], [], [], [], 0⟩
                  ⟨1, 5, 7, "Vera", "", "text", "hi", none⟩ "S" "A").nextMsgId,
                 teamReplyLabel ++ "answer"⟩,
               ⟨20, (afterBroadcast allOk ⟨[10, 20], [], [], [], [], 0⟩
                  ⟨1, 5, 7, "Vera", "", "text", "hi", none⟩ "S" "A").nextMsgId + 1,
                 sentConfirmText⟩],
            nextMsgId := (afterBroadcast allOk ⟨[10, 20], [], [], [], [], 0⟩
              ⟨1, 5, 7, "Vera", "", "text", "hi", none⟩ "S" "A").nextMsgId + 2 },
         .Delivered)
      ∧ handle_admin_reply allOk (afterBroadcast allOk ⟨[10, 20], [], [], [], [], 0⟩
          ⟨1, 5, 7, "Vera", "", "text", "hi", none⟩ "S" "A")
          ⟨20, 51, 10, "Op", "", "text", "x", some (99, 99)⟩ =
        (afterBroadcast allOk ⟨[10, 20], [], [], [], [], 0⟩
          ⟨1, 5, 7, "Vera", "", "text", "hi", none⟩ "S" "A", .NoSuchThread)) :=
  ⟨⟨rfl, by decide, by decide, by decide, rfl, by decide, rfl, rfl, by decide⟩,
   C1_reply_routes_to_origin allOk ⟨[10, 20], [], [], [], [], 0⟩
     ⟨1, 5, 7, "Vera", "", "text", "hi", none⟩ "S" "A" 1 20
     ⟨20, 50, 10, "Op", "", "text", "answer", some (20, 2)⟩
     ⟨20, 51, 10, "Op", "", "text", "x", some (99, 99)⟩ 99 99
     rfl (by decide) (by decide) (by decide) rfl (by decide) rfl rfl (by decide) (by decide)⟩

theorem updateStore_cons_self (v : Nat) (sess s : CollaborateFormSession)
    (tail : List (Nat × CollaborateFormSession)) (hmiss : getSession tail v = none) :
    updateSessionStore ((v, sess) :: tail) v s = (v, s) :: tail := by
  rw [updateSessionStore]
  simp [updateStore_miss s tail v hmiss]

theorem popSession_cons_self (v : Nat) (s : CollaborateFormSession)
    (tail : List (Nat × CollaborateFormSession)) :
    popSession ((v, s) :: tail) v = tail := by
  rw [popSession]
  simp

theorem step_valid_name (st : BotState) (v : Nat) (sess : CollaborateFormSession)
    (tail : List (Nat × CollaborateFormSession)) (m : Msg)
    (hcs : st.collaborate_sessions = (v, sess) :: tail)
    (hmiss : getSession tail v = none)
    (hu : sess.user_id = v)
    (ht : m.content_type = "text") (hx : m.text ≠ "") :
    _ensure_text_step allOk st ⟨Stage.name, sess⟩ m =
      ({ st with
          collaborate_sessions := (v, { sess with name := some m.text.trim }) :: tail,
          sent := st.sent ++ [⟨sess.chat_id, st.nextMsgId, orgPromptText⟩],
          nextMsgId := st.nextMsgId + 1 },
       some ⟨Stage.organization, { sess with name := some m.text.trim }⟩) := by
  rw [_ensure_text_step, if_neg (fun h => h.elim (fun hA => hA ht) hx)]
  show _capture_step allOk st Stage.name sess m = _
  rw [_capture_step]
  rw [hu, hcs, updateStore_cons_self v sess _ tail hmiss]
  simp [send, allOk]

theorem step_valid_organization (st : BotState) (v : Nat) (sess : CollaborateFormSession)
    (tail : List (Nat × CollaborateFormSession)) (m : Msg)
    (hcs : st.collaborate_sessions = (v, sess) :: tail)
    (hmiss : getSession tail v = none)
    (hu : sess.user_id = v)
    (ht : m.content_type = "text") (hx : m.text ≠ "") :
    _ensure_text_step allOk st ⟨Stage.organization, sess⟩ m =
      ({ st with
          collaborate_sessions := (v, { sess with organization := some m.text.trim }) :: tail,
          sent := st.sent ++ [⟨sess.chat_id, st.nextMsgId, ideaPromptText⟩],
          nextMsgId := st.nextMsgId + 1 },
       some ⟨Stage.idea, { sess with organization := some m.text.trim }⟩) := by
  rw [_ensure_text_step, if_neg (fun h => h.elim (fun hA => hA ht) hx)]
  show _capture_step allOk st Stage.organization sess m = _
  rw [_capture_step]
  rw [hu, hcs, updateStore_cons_self v sess _ tail hmiss]
  simp [send, allOk]

theorem step_valid_idea (st : BotState) (v : Nat) (sess : CollaborateFormSession)
    (tail : List (Nat × CollaborateFormSession)) (m : Msg)
    (hcs : st.collaborate_sessions = (v, sess) :: tail)
    (hmiss : getSession tail v = none)
    (hu : sess.user_id = v)
    (ht : m.content_type = "text") (hx : m.text ≠ "") :
    _ensure_text_step allOk st ⟨Stage.idea, sess⟩ m =
      ({ st with
          collaborate_sessions := (v, { sess with idea := some m.text.trim }) :: tail,
          sent := st.sent ++ [⟨sess.chat_id, st.nextMsgId, timelinePromptText⟩],
          nextMsgId := st.nextMsgId + 1 },
       some ⟨Stage.timeline, { sess with idea := some m.text.trim }⟩) := by
  rw [_ensure_text_step, if_neg (fun h => h.elim (fun hA => hA ht) hx)]
  show _capture_step allOk st Stage.idea sess m = _
  rw [_capture_step]
  rw [hu, hcs, updateStore_cons_self v sess _ tail hmiss]
  simp [send, allOk]

theorem step_valid_timeline (st : BotState) (v : Nat) (sess : CollaborateFormSession)
    (tail : List (Nat × CollaborateFormSession)) (m : Msg)
    (hcs : st.collaborate_sessions = (v, sess) :: tail)
    (hmiss : getSession tail v = none)
    (hu : sess.user_id = v)
    (ht : m.content_type = "text") (hx : m.text ≠ "") :
    _ensure_text_step allOk st ⟨Stage.timeline, sess⟩ m =
      ({ st with
          collaborate_sessions := (v, { sess with timeline := some m.text.trim }) :: tail,
          sent := st.sent ++ [⟨sess.chat_id, st.nextMsgId, contactInfoPromptText⟩],
          nextMsgId := st.nextMsgId + 1 },
       some ⟨Stage.contact_info, { sess with timeline := some m.text.trim }⟩) := by
  rw [_ensure_text_step, if_neg (fun h => h.elim (fun hA => hA ht) hx)]
  show _capture_step allOk st Stage.timeline sess m = _
  rw [_capture_step]
  rw [hu, hcs, updateStore_cons_self v sess _ tail hmiss]
  simp [send, allOk]

theorem step_valid_contact_info (st : BotState) (v : Nat) (sess : CollaborateFormSession)
    (tail : List (Nat × CollaborateFormSession)) (m : Msg)
    (hcs : st.collaborate_sessions = (v, sess) :: tail)
    (hmiss : getSession tail v = none)
    (hu : sess.user_id = v)
    (ht : m.content_type = "text") (hx : m.text ≠ "") :
    _ensure_text_step allOk st ⟨Stage.contact_info, sess⟩ m =
      ((_broadcast_to_admins allOk { st with collaborate_sessions := tail } m
          (collabSummary (displayName m.from_full_name m.from_username)
            { sess with contact_info := some m.text.trim }) collabAckText).1,
       none) := by
  rw [_ensure_text_step, if_neg (fun h => h.elim (fun hA => hA ht) hx)]
  show _capture_step allOk st Stage.contact_info sess m = _
  simp only [_capture_step, _send_collaboration]
  rw [hu, hcs, updateStore_cons_self v sess _ tail hmiss]
  rw [popSession_cons_self]

/-- The full intake run: start a session, then feed the answer messages. -/
def collabRun (st0 : BotState) (mStart : Msg) (ms : List Msg) :
    BotState × Option PendingStep :=
  runSteps allOk
    ((handle_collaborate allOk st0 mStart).1, (handle_collaborate allOk st0 mStart).2.1) ms

/-- The record assembled by a run whose five answers were `m1 .. m5`. -/
def collabRecord (chat v : Nat) (m1 m2 m3 m4 m5 : Msg) : CollaborateFormSession :=
  ⟨chat, v, some m1.text.trim, some m2.text.trim, some m3.text.trim,
    some m4.text.trim, some m5.text.trim⟩

theorem collabRun_chain (st : BotState) (v : Nat) (s0 : CollaborateFormSession)
    (tail : List (Nat × CollaborateFormSession)) (m1 m2 m3 m4 m5 : Msg)
    (hcs : st.collaborate_sessions = (v, s0) :: tail)
    (hmiss : getSession tail v = none)
    (hu : s0.user_id = v)
    (ht1 : m1.content_type = "text") (hx1 : m1.text ≠ "")
    (ht2 : m2.content_type = "text") (hx2 : m2.text ≠ "")
    (ht3 : m3.content_type = "text") (hx3 : m3.text ≠ "")
    (ht4 : m4.content_type = "text") (hx4 : m4.text ≠ "")
    (ht5 : m5.content_type = "text") (hx5 : m5.text ≠ "") :
    (runSteps allOk (st, some ⟨Stage.name, s0⟩) [m1, m2, m3, m4, m5]).2 = none
    ∧ (runSteps allOk (st, some ⟨Stage.name, s0⟩) [m1, m2, m3, m4, m5]).1.broadcasts =
        st.broadcasts ++
          [collabSummary (displayName m5.from_full_name m5.from_username)
            { s0 with
                name := some m1.text.trim,
                organization := some m2.text.trim,
                idea := some m3.text.trim,
                timeline := some m4.text.trim,
                contact_info := some m5.text.trim }]
    ∧ getSession (runSteps allOk (st, some ⟨Stage.name, s0⟩)
        [m1, m2, m3, m4, m5]).1.collaborate_sessions v = none := by
  simp only [runSteps]
  rw [step_valid_name st v s0 tail m1 hcs hmiss hu ht1 hx1]
  simp only [runSteps]
  rw [step_valid_organization _ v { s0 with name := some m1.text.trim }
    tail m2 rfl hmiss hu ht2 hx2]
  simp only [runSteps]
  rw [step_valid_idea _ v
    { s0 with name := some m1.text.trim, organization := some m2.text.trim }
    tail m3 rfl hmiss hu ht3 hx3]
  simp only [runSteps]
  rw [step_valid_timeline _ v
    { s0 with name := some m1.text.trim, organization := some m2.text.trim, idea := some m3.text.trim }
    tail m4 rfl hmiss hu ht4 hx4]
  simp only [runSteps]
  rw [step_valid_contact_info _ v
    { s0 with name := some m1.text.trim, organization := some m2.text.trim, idea := some m3.text.trim, timeline := some m4.text.trim }
    tail m5 rfl hmiss hu ht5 hx5]
  simp only [runSteps]
  refine ⟨by simp, ?_, ?_⟩
  · exact (broadcast_preserves allOk _ m5 _ collabAckText).2.1
  · rw [(broadcast_preserves allOk _ m5 _ collabAckText).1]
    exact hmiss

theorem collabSummary_parts (un : String) (s : CollaborateFormSession) :
    strContains (collabSummary un s) (strOfOpt s.name)
    ∧ strContains (collabSummary un s) (strOfOpt s.organization)
    ∧ strContains (collabSummary un s) (strOfOpt s.idea)
    ∧ strContains (collabSummary un s) (strOfOpt s.timeline)
    ∧ strContains (collabSummary un s) (strOfOpt s.contact_info) := by
  refine ⟨⟨"🤝 <b>New collaboration request</b>\n\nFrom: " ++ un ++ " (ID: " ++
      toString s.user_id ++ ")\nChat ID: " ++ toString s.chat_id ++ "\n\nName: ",
      "\nOrganization: " ++ strOfOpt s.organization ++ "\nIdea: " ++ strOfOpt s.idea ++
      "\nTimeline: " ++ strOfOpt s.timeline ++ "\nContact info: " ++
      strOfOpt s.contact_info ++ "\n\nReply to this message to follow up with them.", ?_⟩,
    ⟨"🤝 <b>New collaboration request</b>\n\nFrom: " ++ un ++ " (ID: " ++
      toString s.user_id ++ ")\nChat ID: " ++ toString s.chat_id ++ "\n\nName: " ++
      strOfOpt s.name ++ "\nOrganization: ",
      "\nIdea: " ++ strOfOpt s.idea ++ "\nTimeline: " ++ strOfOpt s.timeline ++
      "\nContact info: " ++ strOfOpt s.contact_info ++
      "\n\nReply to this message to follow up with them.", ?_⟩,
    ⟨"🤝 <b>New collaboration request</b>\n\nFrom: " ++ un ++ " (ID: " ++
      toString s.user_id ++ ")\nChat ID: " ++ toString s.chat_id ++ "\n\nName: " ++
      strOfOpt s.name ++ "\nOrganization: " ++ strOfOpt s.organization ++ "\nIdea: ",
      "\nTimeline: " ++ strOfOpt s.timeline ++ "\nContact info: " ++
      strOfOpt s.contact_info ++ "\n\nReply to this message to follow up with them.", ?_⟩,
    ⟨"🤝 <b>New collaboration request</b>\n\nFrom: " ++ un ++ " (ID: " ++
      toString s.user_id ++ ")\nChat ID: " ++ toString s.chat_id ++ "\n\nName: " ++
      strOfOpt s.name ++ "\nOrganization: " ++ strOfOpt s.organization ++ "\nIdea: " ++
      strOfOpt s.idea ++ "\nTimeline: ",
      "\nContact info: " ++ strOfOpt s.contact_info ++
      "\n\nReply to this message to follow up with them.", ?_⟩,
    ⟨"🤝 <b>New collaboration request</b>\n\nFrom: " ++ un ++ " (ID: " ++
      toString s.user_id ++ ")\nChat ID: " ++ toString s.chat_id ++ "\n\nName: " ++
      strOfOpt s.name ++ "\nOrganization: " ++ strOfOpt s.organization ++ "\nIdea: " ++
      strOfOpt s.idea ++ "\nTimeline: " ++ strOfOpt s.timeline ++ "\nContact info: ",
      "\n\nReply to this message to follow up with them.", ?_⟩⟩ <;>
  · rw [collabSummary]
    simp [String.append_assoc]

/-- C4: a visitor who starts a session and answers all five prompts with
valid text triggers exactly one broadcast, whose summary contains all five
trimmed answers verbatim, and the session is removed from the store, so the
visitor has no open session afterwards (and no further step is
registered). -/
theorem C4_round_trip (st0 : BotState) (v : Nat) (mStart m1 m2 m3 m4 m5 : Msg)
    (hns : getSession st0.collaborate_sessions v = none)
    (hv : mStart.from_user_id = v)
    (ht1 : m1.content_type = "text") (hx1 : m1.text ≠ "")
    (ht2 : m2.content_type = "text") (hx2 : m2.text ≠ "")
    (ht3 : m3.content_type = "text") (hx3 : m3.text ≠ "")
    (ht4 : m4.content_type = "text") (hx4 : m4.text ≠ "")
    (ht5 : m5.content_type = "text") (hx5 : m5.text ≠ "") :
    (collabRun st0 mStart [m1, m2, m3, m4, m5]).2 = none
    ∧ (collabRun st0 mStart [m1, m2, m3, m4, m5]).1.broadcasts =
        st0.broadcasts ++
          [collabSummary (displayName m5.from_full_name m5.from_username)
            (collabRecord mStart.chat_id v m1 m2 m3 m4 m5)]
    ∧ getSession (collabRun st0 mStart [m1, m2, m3, m4, m5]).1.collaborate_sessions v = none
    ∧ strContains (collabSummary (displayName m5.from_full_name m5.from_username)
        (collabRecord mStart.chat_id v m1 m2 m3 m4 m5)) m1.text.trim
    ∧ strContains (collabSummary (displayName m5.from_full_name m5.from_username)
        (collabRecord mStart.chat_id v m1 m2 m3 m4 m5)) m2.text.trim
    ∧ strContains (collabSummary (displayName m5.from_full_name m5.from_username)
        (collabRecord mStart.chat_id v m1 m2 m3 m4 m5)) m3.text.trim
    ∧ strContains (collabSummary (displayName m5.from_full_name m5.from_username)
        (collabRecord mStart.chat_id v m1 m2 m3 m4 m5)) m4.text.trim
    ∧ strContains (collabSummary (displayName m5.from_full_name m5.from_username)
        (collabRecord mStart.chat_id v m1 m2 m3 m4 m5)) m5.text.trim := by
  have hstart : handle_collaborate allOk st0 mStart =
      ({ st0 with
          collaborate_sessions :=
            (v, ⟨mStart.chat_id, v, none, none, none, none, none⟩) :: st0.collaborate_sessions,
          sent := st0.sent ++ [⟨mStart.chat_id, st0.nextMsgId, nameFirstPromptText⟩],
          nextMsgId := st0.nextMsgId + 1 },
       some ⟨Stage.name, ⟨mStart.chat_id, v, none, none, none, none, none⟩⟩, .Started) := by
    rw [handle_collaborate, hv]
    simp [hns, send, allOk]
  have hchain := collabRun_chain
    { st0 with
        collaborate_sessions :=
          (v, ⟨mStart.chat_id, v, none, none, none, none, none⟩) :: st0.collaborate_sessions,
        sent := st0.sent ++ [⟨mStart.chat_id, st0.nextMsgId, nameFirstPromptText⟩],
        nextMsgId := st0.nextMsgId + 1 }
    v ⟨mStart.chat_id, v, none, none, none, none, none⟩ st0.collaborate_sessions
    m1 m2 m3 m4 m5 rfl hns rfl ht1 hx1 ht2 hx2 ht3 hx3 ht4 hx4 ht5 hx5
  have hparts := collabSummary_parts
    (displayName m5.from_full_name m5.from_username)
    (collabRecord mStart.chat_id v m1 m2 m3 m4 m5)
  rw [collabRun, hstart]
  exact ⟨hchain.1, hchain.2.1, hchain.2.2,
    hparts.1, hparts.2.1, hparts.2.2.1, hparts.2.2.2.1, hparts.2.2.2.2⟩

theorem C4_round_trip_witness :
    (getSession (⟨[], [], [], [], [], 0⟩ : BotState).collaborate_sessions 7 = none
      ∧ (⟨100, 1, 7, "Ann", "", "text", "/collaborate", none⟩ : Msg).from_user_id = 7
      ∧ (⟨100, 2, 7, "Ann", "", "text", " Alice ", none⟩ : Msg).content_type = "text"
      ∧ (⟨100, 2, 7, "Ann", "", "text", " Alice ", none⟩ : Msg).text ≠ ""
      ∧ (⟨100, 3, 7, "Ann", "", "text", "Chess Club", none⟩ : Msg).content_type = "text"
      ∧ (⟨100, 3, 7, "Ann", "", "text", "Chess Club", none⟩ : Msg).text ≠ ""
      ∧ (⟨100, 4, 7, "Ann", "", "text", "Hack night", none⟩ : Msg).content_type = "text"
      ∧ (⟨100, 4, 7, "Ann", "", "text", "Hack night", none⟩ : Msg).text ≠ ""
      ∧ (⟨100, 5, 7, "Ann", "", "text", "Next month", none⟩ : Msg).content_type = "text"
      ∧ (⟨100, 5, 7, "Ann", "", "text", "Next month", none⟩ : Msg).text ≠ ""
      ∧ (⟨100, 6, 7, "Ann", "", "text", "@alice", none⟩ : Msg).content_type = "text"
      ∧ (⟨100, 6, 7, "Ann", "", "text", "@alice", none⟩ : Msg).text ≠ "")
    ∧ ((collabRun ⟨[], [], [], [], [], 0⟩
        ⟨100, 1, 7, "Ann", "", "text", "/collaborate", none⟩
        [⟨100, 2, 7, "Ann", "", "text", " Alice ", none⟩, ⟨100, 3, 7, "Ann", "", "text", "Chess Club", none⟩, ⟨100, 4, 7, "Ann", "", "text", "Hack night", none⟩, ⟨100, 5, 7, "Ann", "", "text", "Next month", none⟩, ⟨100, 6, 7, "Ann", "", "text", "@alice", none⟩]).2 = none
      ∧ (collabRun ⟨[], [], [], [], [], 0⟩
        ⟨100, 1, 7, "Ann", "", "text", "/collaborate", none⟩
        [⟨100, 2, 7, "Ann", "", "text", " Alice ", none⟩, ⟨100, 3, 7, "Ann", "", "text", "Chess Club", none⟩, ⟨100, 4, 7, "Ann", "", "text", "Hack night", none⟩, ⟨100, 5, 7, "Ann", "", "text", "Next month", none⟩, ⟨100, 6, 7, "Ann", "", "text", "@alice", none⟩]).1.broadcasts =
        (⟨[], [], [], [], [], 0⟩ : BotState).broadcasts ++
          [collabSummary (displayName (⟨100, 6, 7, "Ann", "", "text", "@alice", none⟩ : Msg).from_full_name (⟨100, 6, 7, "Ann", "", "text", "@alice", none⟩ : Msg).from_username)
        (collabRecord (⟨100, 1, 7, "Ann", "", "text", "/collaborate", none⟩ : Msg).chat_id 7
          ⟨100, 2, 7, "Ann", "", "text", " Alice ", none⟩ ⟨100, 3, 7, "Ann", "", "text", "Chess Club", none⟩ ⟨100, 4, 7, "Ann", "", "text", "Hack night", none⟩ ⟨100, 5, 7, "Ann", "", "text", "Next month", none⟩ ⟨100, 6, 7, "Ann", "", "text", "@alice", none⟩)]
      ∧ getSession (collabRun ⟨[], [], [], [], [], 0⟩
        ⟨100, 1, 7, "Ann", "", "text", "/collaborate", none⟩
        [⟨100, 2, 7, "Ann", "", "text", " Alice ", none⟩, ⟨100, 3, 7, "Ann", "", "text", "Chess Club", none⟩, ⟨100, 4, 7, "Ann", "", "text", "Hack night", none⟩, ⟨100, 5, 7, "Ann", "", "text", "Next month", none⟩, ⟨100, 6, 7, "Ann", "", "text", "@alice", none⟩]).1.collaborate_sessions 7 = none
      ∧ strContains (collabSummary (displayName (⟨100, 6, 7, "Ann", "", "text", "@alice", none⟩ : Msg).from_full_name (⟨100, 6, 7, "Ann", "", "text", "@alice", none⟩ : Msg).from_username)
        (collabRecord (⟨100, 1, 7, "Ann", "", "text", "/collaborate", none⟩ : Msg).chat_id 7
          ⟨100, 2, 7, "Ann", "", "text", " Alice ", none⟩ ⟨100, 3, 7, "Ann", "", "text", "Chess Club", none⟩ ⟨100, 4, 7, "Ann", "", "text", "Hack night", none⟩ ⟨100, 5, 7, "Ann", "", "text", "Next month", none⟩ ⟨100, 6, 7, "Ann", "", "text", "@alice", none⟩)) (⟨100, 2, 7, "Ann", "", "text", " Alice ", none⟩ : Msg).text.trim
      ∧ strContains (collabSummary (displayName (⟨100, 6, 7, "Ann", "", "text", "@alice", none⟩ : Msg).from_full_name (⟨100, 6, 7, "Ann", "", "text", "@alice", none⟩ : Msg).from_username)
        (collabRecord (⟨100, 1, 7, "Ann", "", "text", "/collaborate", none⟩ : Msg).chat_id 7
          ⟨100, 2, 7, "Ann", "", "text", " Alice ", none⟩ ⟨100, 3, 7, "Ann", "", "text", "Chess Club", none⟩ ⟨100, 4, 7, "Ann", "", "text", "Hack night", none⟩ ⟨100, 5, 7, "Ann", "", "text", "Next month", none⟩ ⟨100, 6, 7, "Ann", "", "text", "@alice", none⟩)) (⟨100, 3, 7, "Ann", "", "text", "Chess Club", none⟩ : Msg).text.trim
      ∧ strContains (collabSummary (displayName (⟨100, 6, 7, "Ann", "", "text", "@alice", none⟩ : Msg).from_full_name (⟨100, 6, 7, "Ann", "", "text", "@alice", none⟩ : Msg).from_username)
        (collabRecord (⟨100, 1, 7, "Ann", "", "text", "/collaborate", none⟩ : Msg).chat_id 7
          ⟨100, 2, 7, "Ann", "", "text", " Alice ", none⟩ ⟨100, 3, 7, "Ann", "", "text", "Chess Club", none⟩ ⟨100, 4, 7, "Ann", "", "text", "Hack night", none⟩ ⟨100, 5, 7, "Ann", "", "text", "Next month", none⟩ ⟨100, 6, 7, "Ann", "", "text", "@alice", none⟩)) (⟨100, 4, 7, "Ann", "", "text", "Hack night", none⟩ : Msg).text.trim
      ∧ strContains (collabSummary (displayName (⟨100, 6, 7, "Ann", "", "text", "@alice", none⟩ : Msg).from_full_name (⟨100, 6, 7, "Ann", "", "text", "@alice", none⟩ : Msg).from_username)
        (collabRecord (⟨100, 1, 7, "Ann", "", "text", "/collaborate", none⟩ : Msg).chat_id 7
          ⟨100, 2, 7, "Ann", "", "text", " Alice ", none⟩ ⟨100, 3, 7, "Ann", "", "text", "Chess Club", none⟩ ⟨100, 4, 7, "Ann", "", "text", "Hack night", none⟩ ⟨100, 5, 7, "Ann", "", "text", "Next month", none⟩ ⟨100, 6, 7, "Ann", "", "text", "@alice", none⟩)) (⟨100, 5, 7, "Ann", "", "text", "Next month", none⟩ : Msg).text.trim
      ∧ strContains (collabSummary (displayName (⟨100, 6, 7, "Ann", "", "text", "@alice", none⟩ : Msg).from_full_name (⟨100, 6, 7, "Ann", "", "text", "@alice", none⟩ : Msg).from_username)
        (collabRecord (⟨100, 1, 7, "Ann", "", "text", "/collaborate", none⟩ : Msg).chat_id 7
          ⟨100, 2, 7, "Ann", "", "text", " Alice ", none⟩ ⟨100, 3, 7, "Ann", "", "text", "Chess Club", none⟩ ⟨100, 4, 7, "Ann", "", "text", "Hack night", none⟩ ⟨100, 5, 7, "Ann", "", "text", "Next month", none⟩ ⟨100, 6, 7, "Ann", "", "text", "@alice", none⟩)) (⟨100, 6, 7, "Ann", "", "text", "@alice", none⟩ : Msg).text.trim) :=
  ⟨⟨rfl, rfl, rfl, (by decide), rfl, (by decide), rfl, (by decide), rfl, (by decide), rfl, (by decide)⟩,
   C4_round_trip ⟨[], [], [], [], [], 0⟩ 7
     ⟨100, 1, 7, "Ann", "", "text", "/collaborate", none⟩
     ⟨100, 2, 7, "Ann", "", "text", " Alice ", none⟩
     ⟨100, 3, 7, "Ann", "", "text", "Chess Club", none⟩
     ⟨100, 4, 7, "Ann", "", "text", "Hack night", none⟩
     ⟨100, 5, 7, "Ann", "", "text", "Next month", none⟩
     ⟨100, 6, 7, "Ann", "", "text", "@alice", none⟩
     rfl rfl rfl (by decide) rfl (by decide) rfl (by decide) rfl (by decide) rfl (by decide)⟩

end TeamSpark
